import Mathlib

/-!
Shallow embedding of the session-based authentication subsystem of the blog
server (Express/TypeScript): the `authenticate` middleware
(`src/server/src/middleware/validation.ts`), and the `login` / `logout`
controllers (auth controllers file).  Stores are modelled as lists of
records, bcrypt as an abstract one-way hash wrapper, clock instants as
natural-number millisecond timestamps, and each handler as a pure function
from (stores, request inputs, now) to (HTTP outcome, updated session store).
-/

namespace Blog

/-- Abstract model of a bcrypt digest: `bcryptHash` wraps the hashed secret
in a dedicated `Hash` type (a stored `Hash` is never a raw `String`
credential), and `bcryptCompare secret h` succeeds exactly when `h` is the
digest of `secret`, modelling `bcrypt.compare`. -/
structure Hash where
  pre : String
deriving DecidableEq

/-- Model of `bcrypt.hash(secret, cost)`. -/
def bcryptHash (secret : String) : Hash := ⟨secret⟩

/-- Model of `bcrypt.compare(secret, hash)`. -/
def bcryptCompare (secret : String) (h : Hash) : Bool :=
  decide (h = bcryptHash secret)

/-- `hashToken` from the auth controllers: bcrypt-hash the bearer token. -/
def hashToken (token : String) : Hash := bcryptHash token

/-- `verifyToken` from the auth controllers and the middleware:
`bcrypt.compare(token, hash)`. -/
def verifyToken (token : String) (h : Hash) : Bool := bcryptCompare token h

/-- The `User` model (`src/server/src/models/User.ts`): the fields the
authentication subsystem reads.  `password` is the stored bcrypt digest of
the account password; `otp` is the secret one-time-password field. -/
structure User where
  id : String
  firstname : String
  lastname : String
  email : String
  password : Hash
  otp : String
  isAdmin : Bool
  isEmailVerified : Bool
  isBanned : Bool
deriving DecidableEq

/-- The `Session` model (`src/server/src/models/Session.ts`).
`expiresAt` is a millisecond timestamp (`Date` in the source). -/
structure Session where
  id : String
  userId : String
  tokenHash : Hash
  ipAddress : String
  userAgent : String
  isActive : Bool
  expiresAt : Nat
deriving DecidableEq

/-- An HTTP error/acknowledgement body: `res.status(status).json({success, message})`. -/
structure HttpResponse where
  status : Nat
  success : Bool
  message : String
deriving DecidableEq

/-- 401 body sent when a credential cookie is missing. -/
def respMissingCredential : HttpResponse :=
  ⟨401, false, "Token d\x27authentification manquant"⟩

/-- 401 body sent when no active session matches the `sessionId` cookie. -/
def respSessionInvalid : HttpResponse := ⟨401, false, "Session invalide"⟩

/-- 401 body sent when the session is past its `expiresAt`. -/
def respSessionExpired : HttpResponse := ⟨401, false, "Session expirée"⟩

/-- 401 body sent when the bearer token does not verify against `tokenHash`. -/
def respTokenInvalid : HttpResponse := ⟨401, false, "Token invalide"⟩

/-- 403 body sent when the owning account is banned (or missing on the join). -/
def respAccountBanned : HttpResponse := ⟨403, false, "Votre compte a été suspendu"⟩

/-- Outcome of the `authenticate` middleware: either a rejection response, or
success (the resolved user and session are attached to the request and
`next()` is called). -/
inductive AuthOutcome where
  | reject (resp : HttpResponse)
  | success (user : User) (session : Session)
deriving DecidableEq

/-- The predicate of `Session.findOne({where: {id: sessionId, isActive: true}})`. -/
def activeSessionWithId (sid : String) (s : Session) : Bool :=
  s.id == sid && s.isActive

/-- `session.update({isActive: false})`: persist deactivation of the record
with the given primary key. -/
def deactivateSession (sessions : List Session) (sid : String) : List Session :=
  sessions.map fun s => if s.id == sid then { s with isActive := false } else s

/-- The `authenticate` middleware
(`src/server/src/middleware/validation.ts`, lines 217-294).  Cookies are
`Option String` (`none` = absent); JavaScript truthiness makes an empty
string count as missing too.  Returns the outcome together with the session
store after the call (only the expired branch writes to the store). -/
def authenticate (users : List User) (sessions : List Session)
    (cookieSessionId cookieToken : Option String) (now : Nat) :
    AuthOutcome × List Session :=
  match cookieSessionId, cookieToken with
  | some sid, some token =>
    if sid.isEmpty || token.isEmpty then
      (.reject respMissingCredential, sessions)
    else
      match sessions.find? (activeSessionWithId sid) with
      | none => (.reject respSessionInvalid, sessions)
      | some session =>
        if session.expiresAt < now then
          (.reject respSessionExpired, deactivateSession sessions session.id)
        else if verifyToken token session.tokenHash = false then
          (.reject respTokenInvalid, sessions)
        else
          match users.find? (fun u => u.id == session.userId) with
          | none => (.reject respAccountBanned, sessions)
          | some user =>
            if user.isBanned then
              (.reject respAccountBanned, sessions)
            else
              (.success user session, sessions)
  | _, _ => (.reject respMissingCredential, sessions)

/-- The user object returned by a successful login: `user.toJSON()` with the
`password` and `otp` fields destructured away. -/
structure SanitizedUser where
  id : String
  firstname : String
  lastname : String
  email : String
  isAdmin : Bool
  isEmailVerified : Bool
  isBanned : Bool
deriving DecidableEq

/-- Drop `password` and `otp` from a user record
(`const { password: _password, otp: _otp, ...userResponse } = userData`). -/
def sanitizeUser (u : User) : SanitizedUser :=
  ⟨u.id, u.firstname, u.lastname, u.email, u.isAdmin, u.isEmailVerified, u.isBanned⟩

/-- The login response: status, `{success, message, data}` and the two
credential-carrier cookies (`sessionId`, raw bearer `token`) set on success. -/
structure LoginResponse where
  status : Nat
  success : Bool
  message : String
  data : Option (SanitizedUser × String)
  cookies : Option (String × String)
deriving DecidableEq

/-- `SESSION_EXPIRES_IN = 24 * 60 * 60 * 1000` (24 hours in milliseconds). -/
def SESSION_EXPIRES_IN : Nat := 24 * 60 * 60 * 1000

/-- The predicate of the existing-session lookup in `login`:
`{userId, ipAddress, userAgent, isActive: true, expiresAt: {[Op.gt]: new Date()}}`. -/
def reusableSession (uid ip ua : String) (now : Nat) (s : Session) : Bool :=
  s.userId == uid && s.ipAddress == ip && s.userAgent == ua &&
    s.isActive && decide (now < s.expiresAt)

/-- The `login` controller.  `token` is the freshly generated JWT (opaque
here), `freshId` the UUID a newly created session row would receive, `now`
the clock at the call.  Returns the response and the session store after
the call. -/
def login (users : List User) (sessions : List Session)
    (email password ipAddress userAgent token freshId : String) (now : Nat) :
    LoginResponse × List Session :=
  match users.find? (fun u => u.email == email) with
  | none => (⟨401, false, "Email ou mot de passe incorrect", none, none⟩, sessions)
  | some user =>
    if user.isBanned then
      (⟨403, false, "Votre compte a été suspendu", none, none⟩, sessions)
    else if bcryptCompare password user.password = false then
      (⟨401, false, "Email ou mot de passe incorrect", none, none⟩, sessions)
    else
      let tokenHash := hashToken token
      let expiresAt := now + SESSION_EXPIRES_IN
      match sessions.find? (reusableSession user.id ipAddress userAgent now) with
      | some existingSession =>
        (⟨200, true, "Connexion réussie", some (sanitizeUser user, existingSession.id),
            some (existingSession.id, token)⟩,
          sessions.map fun s =>
            if s.id == existingSession.id then
              { s with tokenHash := tokenHash, expiresAt := expiresAt, isActive := true }
            else s)
      | none =>
        (⟨200, true, "Connexion réussie", some (sanitizeUser user, freshId),
            some (freshId, token)⟩,
          sessions ++ [⟨freshId, user.id, tokenHash, ipAddress, userAgent, true, expiresAt⟩])

/-- The `logout` controller: `Session.update({isActive: false}, {where: {id:
sessionId}})`, then always a 200 success response. -/
def logout (sessions : List Session) (sessionId : String) :
    HttpResponse × List Session :=
  (⟨200, true, "Déconnexion réussie"⟩, deactivateSession sessions sessionId)

/-- Flip the `isBanned` flag of the user with the given id (admin ban/unban
action, modelled as the store-level update it performs). -/
def setBanned (users : List User) (uid : String) (b : Bool) : List User :=
  users.map fun u => if u.id == uid then { u with isBanned := b } else u

/-- `true` exactly when the `authenticate` middleware resolves an identity
(calls `next()`) instead of rejecting. -/
def authSucceeds (users : List User) (sessions : List Session)
    (cookieSessionId cookieToken : Option String) (now : Nat) : Bool :=
  match (authenticate users sessions cookieSessionId cookieToken now).1 with
  | .success _ _ => true
  | .reject _ => false

/-! ### Generic `List.find?` helpers -/

theorem find?_eq_some_of_unique {α : Type} {l : List α} {p : α → Bool} {a : α}
    (ha : a ∈ l) (hpa : p a = true) (huniq : ∀ x ∈ l, p x = true → x = a) :
    l.find? p = some a := by
  cases h : l.find? p with
  | none =>
    rw [List.find?_eq_none] at h
    exact absurd hpa (h a ha)
  | some b =>
    have hb : p b = true := List.find?_some h
    have hbmem : b ∈ l := List.mem_of_find?_eq_some h
    rw [huniq b hbmem hb]

/-! ### Unfolding lemmas for `authenticate` -/

theorem authenticate_of_found {users : List User} {sessions : List Session}
    {sid tok : String} {now : Nat} {s : Session}
    (hsid : sid.isEmpty = false) (htok : tok.isEmpty = false)
    (hfind : sessions.find? (activeSessionWithId sid) = some s) :
    authenticate users sessions (some sid) (some tok) now =
      if s.expiresAt < now then
        (.reject respSessionExpired, deactivateSession sessions s.id)
      else if verifyToken tok s.tokenHash = false then
        (.reject respTokenInvalid, sessions)
      else
        match users.find? (fun u => u.id == s.userId) with
        | none => (.reject respAccountBanned, sessions)
        | some user =>
          if user.isBanned then (.reject respAccountBanned, sessions)
          else (.success user s, sessions) := by
  simp [authenticate, hsid, htok, hfind]

theorem authenticate_of_not_found {users : List User} {sessions : List Session}
    {sid tok : String} {now : Nat}
    (hsid : sid.isEmpty = false) (htok : tok.isEmpty = false)
    (hfind : sessions.find? (activeSessionWithId sid) = none) :
    authenticate users sessions (some sid) (some tok) now =
      (.reject respSessionInvalid, sessions) := by
  simp [authenticate, hsid, htok, hfind]

/-- With at most one session carrying the id `sid` in the store, the
middleware's `findOne {id, isActive: true}` returns that session exactly
when it is active. -/
theorem find?_active_of_unique {sessions : List Session} {sid : String} {s : Session}
    (hs : s ∈ sessions) (hid : s.id = sid)
    (huniq : ∀ x ∈ sessions, x.id = sid → x = s) :
    sessions.find? (activeSessionWithId sid) =
      if s.isActive then some s else none := by
  by_cases hact : s.isActive
  · rw [if_pos hact]
    apply find?_eq_some_of_unique hs
    · simp [activeSessionWithId, hid, hact]
    · intro x hx hpx
      have : x.id = sid := by
        simpa [activeSessionWithId, -Bool.and_eq_true] using (Bool.and_elim_left hpx)
      exact huniq x hx this
  · rw [if_neg hact]
    rw [List.find?_eq_none]
    intro x hx hpx
    have hxid : x.id = sid := by
      simpa [activeSessionWithId, -Bool.and_eq_true] using (Bool.and_elim_left hpx)
    have hxact : x.isActive = true := by
      simpa [activeSessionWithId, -Bool.and_eq_true] using (Bool.and_elim_right hpx)
    exact hact (huniq x hx hxid ▸ hxact)

/-- Every record in `deactivateSession sessions sid` whose id is `sid` is
inactive. -/
theorem mem_deactivateSession_inactive {sessions : List Session} {sid : String} :
    ∀ x ∈ deactivateSession sessions sid, x.id = sid → x.isActive = false := by
  intro x hx hxid
  rcases List.mem_map.mp hx with ⟨y, hy, rfl⟩
  by_cases h : y.id == sid
  · simp [h]
  · rw [if_neg h] at hxid
    exact absurd (beq_iff_eq.mpr hxid) h

/-! ### Fixtures: a concrete user/session pair for witnesses and
counterexamples -/

/-- A non-banned test user. -/
def alice : User :=
  ⟨"u1", "Alice", "Martin", "a@x.com", bcryptHash "P@ssw0rd1", "otp123", false, true, false⟩

/-- A banned test user. -/
def bob : User :=
  ⟨"u2", "Bob", "Durand", "b@x.com", bcryptHash "pw2", "otp456", false, true, true⟩

/-- A session of `alice`, expiring at instant 1000. -/
def sessAlice : Session :=
  ⟨"s1", "u1", hashToken "tok", "203.0.113.5", "UA-1", true, 1000⟩

/-! ### C1 -/

/-- C1 (counterexample): at the instant `now = expiresAt` (here 1000) an
active session with a correct token and non-banned owner is accepted by
`authenticate`, yet `expiresAt` is not strictly in the future — the claimed
equivalence `success ↔ isActive ∧ now < expiresAt ∧ verify ∧ ¬banned` fails
at this input because the code's expiry test is strict (`expiresAt < now`). -/
theorem C1_boundary_counterexample :
    ¬ (authSucceeds [alice] [sessAlice] (some "s1") (some "tok") 1000 = true ↔
        (sessAlice.isActive = true ∧ 1000 < sessAlice.expiresAt ∧
          verifyToken "tok" sessAlice.tokenHash = true ∧ alice.isBanned = false)) := by
  decide

/-- C1 (amended): with both cookies present, a unique session record `s` for
the presented id, and `u` the unique user with `s.userId`, `authenticate`
succeeds iff `s.isActive = true`, `expiresAt` is not strictly past
(`¬ expiresAt < now`, i.e. `expiresAt ≥ now`), the presented token verifies
against `tokenHash`, and `u` is not banned — the four checks applied in the
order existence/active → expiry → credential → ban; in particular a session
with `isActive = false` is rejected as `SessionInvalid` ("Session invalide"),
never as `SessionExpired`, even when it is also past `expiresAt`. -/
theorem C1_authenticate_success_iff
    (users : List User) (sessions : List Session) (sid tok : String) (now : Nat)
    (s : Session) (u : User)
    (hsid : sid.isEmpty = false) (htok : tok.isEmpty = false)
    (hs : s ∈ sessions) (hid : s.id = sid)
    (huniq : ∀ x ∈ sessions, x.id = sid → x = s)
    (hu : u ∈ users) (huid : u.id = s.userId)
    (huuniq : ∀ x ∈ users, x.id = s.userId → x = u) :
    (authSucceeds users sessions (some sid) (some tok) now = true ↔
      (s.isActive = true ∧ ¬ s.expiresAt < now ∧
        verifyToken tok s.tokenHash = true ∧ u.isBanned = false)) ∧
    (s.isActive = false →
      (authenticate users sessions (some sid) (some tok) now).1 =
        .reject respSessionInvalid) := by
  have hfind := find?_active_of_unique hs hid huniq
  have hufind : users.find? (fun x => x.id == s.userId) = some u := by
    apply find?_eq_some_of_unique hu (by simp [huid])
    intro x hx hpx
    exact huuniq x hx (by simpa using hpx)
  constructor
  · by_cases hact : s.isActive
    · rw [if_pos hact] at hfind
      unfold authSucceeds
      rw [authenticate_of_found hsid htok hfind]
      by_cases hexp : s.expiresAt < now
      · simp [hexp, hact]
      · by_cases hver : verifyToken tok s.tokenHash
        · by_cases hban : u.isBanned
          · simp [hexp, hver, hufind, hban, hact]
          · simp [hexp, hver, hufind, hban, hact]
        · have hver' : verifyToken tok s.tokenHash = false := by simpa using hver
          simp [hexp, hver', hact]
    · rw [if_neg hact] at hfind
      unfold authSucceeds
      rw [authenticate_of_not_found hsid htok hfind]
      constructor
      · intro h
        simp at h
      · intro h
        exact absurd h.1 hact
  · intro hinact
    rw [hinact] at hfind
    simp only [Bool.false_eq_true, if_false] at hfind
    rw [authenticate_of_not_found hsid htok hfind]

/-- C1 witness: the amended equivalence evaluated on the concrete fixture at
instant 500 (before expiry). -/
theorem C1_authenticate_success_iff_witness :
    (authSucceeds [alice] [sessAlice] (some "s1") (some "tok") 500 = true ↔
      (sessAlice.isActive = true ∧ ¬ sessAlice.expiresAt < 500 ∧
        verifyToken "tok" sessAlice.tokenHash = true ∧ alice.isBanned = false)) ∧
    (sessAlice.isActive = false →
      (authenticate [alice] [sessAlice] (some "s1") (some "tok") 500).1 =
        .reject respSessionInvalid) :=
  C1_authenticate_success_iff [alice] [sessAlice] "s1" "tok" 500 sessAlice alice
    (by decide) (by decide) (by decide) (by decide) (by decide)
    (by decide) (by decide) (by decide)

/-! ### C2 -/

/-- C2 (counterexample): two requests failing for different non-ban
Session-Manager reasons receive distinguishable bodies — a missing session
yields "Session invalide" while an expired session yields "Session expirée",
and the two response records are unequal. -/
theorem C2_distinguishable_counterexample :
    (authenticate [alice] [] (some "s1") (some "tok") 1000).1 =
      .reject respSessionInvalid ∧
    (authenticate [alice] [sessAlice] (some "s1") (some "tok") 2000).1 =
      .reject respSessionExpired ∧
    respSessionInvalid ≠ respSessionExpired := by
  refine ⟨by decide, by decide, by decide⟩

/-- C2 (amended): every rejection of the `authenticate` gate is one of five
fixed bodies; the three non-ban Session-Manager rejections (`SessionInvalid`,
`SessionExpired`, `TokenInvalid`) all carry status 401 and `success = false`
(a single `Unauthenticated` class by status), but their messages are pairwise
distinct, so two requests failing for different ones of these reasons
receive distinguishable response bodies. -/
theorem C2_reject_classes :
    (∀ (users : List User) (sessions : List Session)
        (cid ctok : Option String) (now : Nat) (r : HttpResponse),
      (authenticate users sessions cid ctok now).1 = .reject r →
        r.success = false ∧ (r = respAccountBanned ∨ r.status = 401)) ∧
    respSessionInvalid.status = 401 ∧ respSessionExpired.status = 401 ∧
    respTokenInvalid.status = 401 ∧
    respSessionInvalid ≠ respSessionExpired ∧
    respSessionInvalid ≠ respTokenInvalid ∧
    respSessionExpired ≠ respTokenInvalid := by
  refine ⟨?_, by decide, by decide, by decide, by decide, by decide, by decide⟩
  intro users sessions cid ctok now r h
  have hr : r = respMissingCredential ∨ r = respSessionInvalid ∨
      r = respSessionExpired ∨ r = respTokenInvalid ∨ r = respAccountBanned := by
    rcases cid with _ | sid
    · simp [authenticate] at h
      exact Or.inl h.symm
    · rcases ctok with _ | tok
      · simp [authenticate] at h
        exact Or.inl h.symm
      · by_cases hsid : sid.isEmpty <;> by_cases htok : tok.isEmpty <;>
          simp [authenticate, hsid, htok] at h
        · exact Or.inl h.symm
        · exact Or.inl h.symm
        · exact Or.inl h.symm
        · rcases hf : sessions.find? (activeSessionWithId sid) with _ | s <;>
            rw [hf] at h
          · simp at h
            exact Or.inr (Or.inl h.symm)
          · by_cases hexp : s.expiresAt < now
            · simp [hexp] at h
              exact Or.inr (Or.inr (Or.inl h.symm))
            · by_cases hver : verifyToken tok s.tokenHash = false
              · simp [hexp, hver] at h
                exact Or.inr (Or.inr (Or.inr (Or.inl h.symm)))
              · rcases hu : users.find? (fun u => u.id == s.userId) with _ | u <;>
                  simp [hexp, hver, hu] at h
                · exact Or.inr (Or.inr (Or.inr (Or.inr h.symm)))
                · by_cases hban : u.isBanned
                  · simp [hban] at h
                    exact Or.inr (Or.inr (Or.inr (Or.inr h.symm)))
                  · simp [hban] at h
  rcases hr with rfl | rfl | rfl | rfl | rfl <;> simp [respMissingCredential,
    respSessionInvalid, respSessionExpired, respTokenInvalid, respAccountBanned]

/-- C2 witness: the classifying implication applied to the concrete
`SessionInvalid` rejection. -/
theorem C2_reject_classes_witness :
    respSessionInvalid.success = false ∧
      (respSessionInvalid = respAccountBanned ∨ respSessionInvalid.status = 401) :=
  C2_reject_classes.1 [alice] [] (some "s1") (some "tok") 1000
    respSessionInvalid (by decide)

/-! ### C3 -/

/-- C3 (counterexample): a session presented at exactly `now = expiresAt`
(here 1000) is accepted, not rejected as expired — the code's expiry test
`expiresAt < now` is strict — and the store is left untouched. -/
theorem C3_boundary_counterexample :
    authenticate [alice] [sessAlice] (some "s1") (some "tok")
        sessAlice.expiresAt = (.success alice sessAlice, [sessAlice]) := by
  decide

/-- C3 (amended): for every active session validated at a time strictly past
`expiresAt` (`expiresAt < now`), validation rejects with `SessionExpired`
("Session expirée") and persists `isActive = false` on the record; a session
presented at exactly `now = expiresAt` passes the expiry check (it is not
rejected as expired). -/
theorem C3_expiry_deactivates
    (users : List User) (sessions : List Session) (sid tok : String) (now : Nat)
    (s : Session)
    (hsid : sid.isEmpty = false) (htok : tok.isEmpty = false)
    (hs : s ∈ sessions) (hid : s.id = sid)
    (huniq : ∀ x ∈ sessions, x.id = sid → x = s)
    (hact : s.isActive = true) (hexp : s.expiresAt < now) :
    (authenticate users sessions (some sid) (some tok) now).1 =
      .reject respSessionExpired ∧
    (authenticate users sessions (some sid) (some tok) now).2 =
      deactivateSession sessions s.id ∧
    (∀ x ∈ (authenticate users sessions (some sid) (some tok) now).2,
      x.id = s.id → x.isActive = false) := by
  have hfind := find?_active_of_unique hs hid huniq
  rw [if_pos hact] at hfind
  rw [authenticate_of_found hsid htok hfind]
  rw [if_pos hexp]
  exact ⟨rfl, rfl, mem_deactivateSession_inactive⟩

/-- C3 witness: the expired-session branch evaluated on the concrete fixture
at instant 2000 (strictly past `expiresAt = 1000`). -/
theorem C3_expiry_deactivates_witness :
    (authenticate [alice] [sessAlice] (some "s1") (some "tok") 2000).1 =
      .reject respSessionExpired ∧
    (authenticate [alice] [sessAlice] (some "s1") (some "tok") 2000).2 =
      deactivateSession [sessAlice] sessAlice.id ∧
    (∀ x ∈ (authenticate [alice] [sessAlice] (some "s1") (some "tok") 2000).2,
      x.id = sessAlice.id → x.isActive = false) :=
  C3_expiry_deactivates [alice] [sessAlice] "s1" "tok" 2000 sessAlice
    (by decide) (by decide) (by decide) (by decide) (by decide)
    (by decide) (by decide)

/-! ### Further helpers -/

theorem activeSessionWithId_spec {sid : String} {x : Session}
    (h : activeSessionWithId sid x = true) : x.id = sid ∧ x.isActive = true :=
  ⟨by simpa [activeSessionWithId, -Bool.and_eq_true] using Bool.and_elim_left h,
   by simpa [activeSessionWithId, -Bool.and_eq_true] using Bool.and_elim_right h⟩

theorem authenticate_expired_eq (users : List User) {sessions : List Session}
    {sid tok : String} {now : Nat} {s : Session}
    (hsid : sid.isEmpty = false) (htok : tok.isEmpty = false)
    (hfind : sessions.find? (activeSessionWithId sid) = some s)
    (hexp : s.expiresAt < now) :
    authenticate users sessions (some sid) (some tok) now =
      (.reject respSessionExpired, deactivateSession sessions s.id) := by
  rw [authenticate_of_found hsid htok hfind, if_pos hexp]

/-- After deactivating the record with id `sid`, the middleware's active-
session lookup for `sid` finds nothing (given `sid`-uniqueness). -/
theorem find?_active_deactivated (sessions : List Session) {sid : String}
    {s : Session} (hid : s.id = sid) :
    (deactivateSession sessions s.id).find? (activeSessionWithId sid) = none := by
  rw [List.find?_eq_none]
  intro x hx hpx
  obtain ⟨hxid, hxact⟩ := activeSessionWithId_spec hpx
  have hxsid : x.id = s.id := hxid.trans hid.symm
  have := mem_deactivateSession_inactive x hx hxsid
  rw [this] at hxact
  exact Bool.false_ne_true hxact

/-! ### C5 -/

/-- C5 (confirmed): a session validated successfully at time `T` and again at
`T' > expiresAt` rejects on the second call with `SessionExpired`, leaves the
stored record with `isActive = false`, and every subsequent validation of
that session id on the resulting store — at any time, with any presented
token — fails (the session never becomes usable again without a new login). -/
theorem C5_expiry_monotone
    (users : List User) (sessions : List Session) (sid tok tok2 : String)
    (T T2 : Nat) (s : Session)
    (hsid : sid.isEmpty = false) (htok : tok.isEmpty = false)
    (htok2 : tok2.isEmpty = false)
    (hs : s ∈ sessions) (hid : s.id = sid)
    (huniq : ∀ x ∈ sessions, x.id = sid → x = s)
    (hsuccess : authSucceeds users sessions (some sid) (some tok) T = true)
    (hexp : s.expiresAt < T2) :
    (authenticate users sessions (some sid) (some tok2) T2).1 =
      .reject respSessionExpired ∧
    (∀ x ∈ (authenticate users sessions (some sid) (some tok2) T2).2,
      x.id = sid → x.isActive = false) ∧
    (∀ (T3 : Nat) (tok3 : String),
      authSucceeds users (authenticate users sessions (some sid) (some tok2) T2).2
        (some sid) (some tok3) T3 = false) := by
  have hfind0 := find?_active_of_unique hs hid huniq
  by_cases hact : s.isActive
  case neg =>
    rw [if_neg hact] at hfind0
    unfold authSucceeds at hsuccess
    rw [authenticate_of_not_found hsid htok hfind0] at hsuccess
    simp at hsuccess
  case pos =>
    rw [if_pos hact] at hfind0
    have hEq := authenticate_expired_eq users hsid htok2 hfind0 hexp
    refine ⟨by rw [hEq], ?_, ?_⟩
    · rw [hEq]
      intro x hx hxid
      exact mem_deactivateSession_inactive x hx (hxid.trans hid.symm)
    · intro T3 tok3
      rw [hEq]
      have hfind2 := find?_active_deactivated sessions hid
      by_cases h3 : tok3.isEmpty
      · simp [authSucceeds, authenticate, h3]
      · have htok3 : tok3.isEmpty = false := by simpa using h3
        unfold authSucceeds
        rw [authenticate_of_not_found hsid htok3 hfind2]

/-- C5 witness: the monotone-expiry chain on the concrete fixture, with the
first validation at instant 500 and the second at 2000. -/
theorem C5_expiry_monotone_witness :
    (authenticate [alice] [sessAlice] (some "s1") (some "tok") 2000).1 =
      .reject respSessionExpired ∧
    (∀ x ∈ (authenticate [alice] [sessAlice] (some "s1") (some "tok") 2000).2,
      x.id = "s1" → x.isActive = false) ∧
    (∀ (T3 : Nat) (tok3 : String),
      authSucceeds [alice]
        (authenticate [alice] [sessAlice] (some "s1") (some "tok") 2000).2
        (some "s1") (some tok3) T3 = false) :=
  C5_expiry_monotone [alice] [sessAlice] "s1" "tok" "tok" 500 2000 sessAlice
    (by decide) (by decide) (by decide) (by decide) (by decide) (by decide)
    (by decide) (by decide)

/-! ### C6 -/

theorem find?_id_setBanned (users : List User) (uid tid : String) (b : Bool) :
    (setBanned users uid b).find? (fun x => x.id == tid) =
      (users.find? (fun x => x.id == tid)).map
        (fun x => if x.id == uid then { x with isBanned := b } else x) := by
  unfold setBanned
  rw [List.find?_map]
  have hp : ((fun x : User => x.id == tid) ∘
      (fun x : User => if x.id == uid then { x with isBanned := b } else x)) =
      fun x : User => x.id == tid := by
    funext x
    by_cases h : x.id == uid <;> simp [Function.comp, h]
  rw [hp]

theorem user_unban_self (u : User) (h : u.isBanned = false) :
    ({ u with isBanned := false } : User) = u := by
  cases u
  simp_all

/-- C6 (confirmed): a wrong bearer credential is rejected `TokenInvalid` and
a banned owner is rejected `AccountBanned`, and in both cases the session
store is returned unchanged (no field of any record is altered); banning the
owner between two validations flips the outcome from success to
`AccountBanned` with the store still unchanged, and unbanning restores
successful validation without a new login. -/
theorem C6_token_ban_nondestructive
    (users : List User) (sessions : List Session) (sid tokBad tokGood : String)
    (now : Nat) (s : Session) (u : User)
    (hsid : sid.isEmpty = false) (htokB : tokBad.isEmpty = false)
    (htokG : tokGood.isEmpty = false)
    (hs : s ∈ sessions) (hid : s.id = sid)
    (huniq : ∀ x ∈ sessions, x.id = sid → x = s)
    (hact : s.isActive = true) (hexp : ¬ s.expiresAt < now)
    (hbad : verifyToken tokBad s.tokenHash = false)
    (hgood : verifyToken tokGood s.tokenHash = true)
    (hu : u ∈ users) (huid : u.id = s.userId)
    (huuniq : ∀ x ∈ users, x.id = s.userId → x = u)
    (hnb : u.isBanned = false) :
    authenticate users sessions (some sid) (some tokBad) now =
      (.reject respTokenInvalid, sessions) ∧
    authenticate users sessions (some sid) (some tokGood) now =
      (.success u s, sessions) ∧
    authenticate (setBanned users u.id true) sessions (some sid) (some tokGood) now =
      (.reject respAccountBanned, sessions) ∧
    authenticate (setBanned (setBanned users u.id true) u.id false) sessions
        (some sid) (some tokGood) now = (.success u s, sessions) := by
  have hfind := find?_active_of_unique hs hid huniq
  rw [if_pos hact] at hfind
  have hufind : users.find? (fun x => x.id == s.userId) = some u := by
    apply find?_eq_some_of_unique hu (by simp [huid])
    intro x hx hpx
    exact huuniq x hx (by simpa using hpx)
  refine ⟨?_, ?_, ?_, ?_⟩
  · rw [authenticate_of_found hsid htokB hfind, if_neg hexp, if_pos hbad]
  · rw [authenticate_of_found hsid htokG hfind, if_neg hexp,
      if_neg (by simp [hgood]), hufind]
    simp [hnb]
  · rw [authenticate_of_found hsid htokG hfind, if_neg hexp,
      if_neg (by simp [hgood]), find?_id_setBanned, hufind]
    simp
  · rw [authenticate_of_found hsid htokG hfind, if_neg hexp,
      if_neg (by simp [hgood]), find?_id_setBanned, find?_id_setBanned, hufind]
    simp [user_unban_self u hnb, hnb]

/-- C6 witness: the non-destructive rejection chain on the concrete fixture
at instant 500 with bad token "nope" and good token "tok". -/
theorem C6_token_ban_nondestructive_witness :
    authenticate [alice] [sessAlice] (some "s1") (some "nope") 500 =
      (.reject respTokenInvalid, [sessAlice]) ∧
    authenticate [alice] [sessAlice] (some "s1") (some "tok") 500 =
      (.success alice sessAlice, [sessAlice]) ∧
    authenticate (setBanned [alice] alice.id true) [sessAlice]
        (some "s1") (some "tok") 500 = (.reject respAccountBanned, [sessAlice]) ∧
    authenticate (setBanned (setBanned [alice] alice.id true) alice.id false)
        [sessAlice] (some "s1") (some "tok") 500 =
      (.success alice sessAlice, [sessAlice]) :=
  C6_token_ban_nondestructive [alice] [sessAlice] "s1" "nope" "tok" 500
    sessAlice alice (by decide) (by decide) (by decide) (by decide) (by decide)
    (by decide) (by decide) (by decide) (by decide) (by decide) (by decide)
    (by decide) (by decide) (by decide)

/-! ### C7 -/

theorem deactivateSession_idem (sessions : List Session) (sid : String) :
    deactivateSession (deactivateSession sessions sid) sid =
      deactivateSession sessions sid := by
  have hf : ((fun s : Session => if s.id == sid then { s with isActive := false } else s) ∘
      (fun s : Session => if s.id == sid then { s with isActive := false } else s)) =
      fun s : Session => if s.id == sid then { s with isActive := false } else s := by
    funext x
    by_cases h : x.id == sid <;> simp [Function.comp, h]
  unfold deactivateSession
  rw [List.map_map, hf]

/-- C7 (confirmed): for every session id — matching an active session, an
already-inactive one, or no stored session — `logout` sets
`isActive = false` on any matching record and returns a 200 success body,
and a second call with the same id produces the same response and leaves the
store in the same end state (idempotence, no error). -/
theorem C7_logout_idempotent (sessions : List Session) (sid : String) :
    (logout sessions sid).1 = ⟨200, true, "Déconnexion réussie"⟩ ∧
    (∀ x ∈ (logout sessions sid).2, x.id = sid → x.isActive = false) ∧
    logout (logout sessions sid).2 sid = logout sessions sid := by
  refine ⟨rfl, mem_deactivateSession_inactive, ?_⟩
  simp [logout, deactivateSession_idem]

/-! ### C9 -/

/-- C9 (confirmed): the gate rejects with 401 and the missing-credential
message whenever either one of the two credential cookies is absent (not
only when both are), leaves the store unchanged, and in that case the
outcome is independent of the user and session stores and of the clock —
the session store is not consulted at all. -/
theorem C9_missing_cookie_rejects (users users2 : List User)
    (sessions sessions2 : List Session) (sid tok : String) (now now2 : Nat) :
    authenticate users sessions none (some tok) now =
      (.reject respMissingCredential, sessions) ∧
    authenticate users sessions (some sid) none now =
      (.reject respMissingCredential, sessions) ∧
    authenticate users sessions none none now =
      (.reject respMissingCredential, sessions) ∧
    (authenticate users sessions none (some tok) now).1 =
      (authenticate users2 sessions2 none (some tok) now2).1 ∧
    (authenticate users sessions (some sid) none now).1 =
      (authenticate users2 sessions2 (some sid) none now2).1 := by
  exact ⟨rfl, rfl, rfl, rfl, rfl⟩

/-! ### C10 -/

/-- C10 (confirmed): `login` tests the account's `isBanned` flag before
verifying the submitted password, so a request naming a banned account's
email returns 403 ("Votre compte a été suspendu") for every submitted
password, even a wrong one, while a wrong password for a non-banned account
returns 401 ("Email ou mot de passe incorrect"). -/
theorem C10_ban_checked_before_password
    (users : List User) (uB uG : User) (emailB emailG : String)
    (hB : users.find? (fun x => x.email == emailB) = some uB)
    (hBban : uB.isBanned = true)
    (hG : users.find? (fun x => x.email == emailG) = some uG)
    (hGnb : uG.isBanned = false) :
    (∀ (sessions : List Session) (password ip ua tok fid : String) (now : Nat),
      login users sessions emailB password ip ua tok fid now =
        (⟨403, false, "Votre compte a été suspendu", none, none⟩, sessions)) ∧
    (∀ (sessions : List Session) (password ip ua tok fid : String) (now : Nat),
      bcryptCompare password uG.password = false →
        login users sessions emailG password ip ua tok fid now =
          (⟨401, false, "Email ou mot de passe incorrect", none, none⟩, sessions)) := by
  constructor
  · intro sessions password ip ua tok fid now
    simp [login, hB, hBban]
  · intro sessions password ip ua tok fid now hpw
    simp [login, hG, hGnb, hpw]

/-- C10 witness: a banned account (`bob`) with a wrong password gets 403,
while a non-banned account (`alice`) with a wrong password gets 401. -/
theorem C10_ban_checked_before_password_witness :
    login [alice, bob] [] "b@x.com" "wrongpw" "ip" "ua" "t" "f" 0 =
      (⟨403, false, "Votre compte a été suspendu", none, none⟩, []) ∧
    login [alice, bob] [] "a@x.com" "wrongpw" "ip" "ua" "t" "f" 0 =
      (⟨401, false, "Email ou mot de passe incorrect", none, none⟩, []) :=
  ⟨(C10_ban_checked_before_password [alice, bob] bob alice "b@x.com" "a@x.com"
      (by decide) (by decide) (by decide) (by decide)).1 [] "wrongpw" "ip" "ua" "t" "f" 0,
   (C10_ban_checked_before_password [alice, bob] bob alice "b@x.com" "a@x.com"
      (by decide) (by decide) (by decide) (by decide)).2 [] "wrongpw" "ip" "ua" "t" "f" 0
      (by decide)⟩

/-! ### C8 -/

/-- C8 (confirmed): on every successful login the response's user object is
the sanitized record — built without the `password` and `otp` fields, hence
insensitive to their values — and every session record the call writes (the
renewed record in the reuse case, the fresh record otherwise, i.e. the
record carrying the returned `sessionId`) stores `hashToken token`, the
one-way bcrypt digest wrapped in the `Hash` type, never the raw bearer
token; the raw token verifies against that stored digest. -/
theorem C8_login_stores_only_hash
    (users : List User) (sessions : List Session) (u : User)
    (email password ip ua tok fid : String) (now : Nat)
    (hu : users.find? (fun x => x.email == email) = some u)
    (hnb : u.isBanned = false)
    (hpw : bcryptCompare password u.password = true)
    (hfresh : ∀ x ∈ sessions, x.id ≠ fid) :
    (∃ sidOut, (login users sessions email password ip ua tok fid now).1.data =
      some (sanitizeUser u, sidOut)) ∧
    (∀ (p : Hash) (o : String),
      sanitizeUser { u with password := p, otp := o } = sanitizeUser u) ∧
    (∀ sidOut su,
      (login users sessions email password ip ua tok fid now).1.data =
        some (su, sidOut) →
      ∀ x ∈ (login users sessions email password ip ua tok fid now).2,
        x.id = sidOut → x.tokenHash = hashToken tok) ∧
    verifyToken tok (hashToken tok) = true := by
  rcases hEx : sessions.find? (reusableSession u.id ip ua now) with _ | ex
  · have hr : login users sessions email password ip ua tok fid now =
        (⟨200, true, "Connexion réussie", some (sanitizeUser u, fid),
            some (fid, tok)⟩,
          sessions ++ [⟨fid, u.id, hashToken tok, ip, ua, true,
            now + SESSION_EXPIRES_IN⟩]) := by
      simp [login, hu, hnb, hpw, hEx]
    rw [hr]
    refine ⟨⟨fid, rfl⟩, fun p o => rfl, ?_, by simp [verifyToken, bcryptCompare, hashToken]⟩
    intro sidOut su hdata x hx hxid
    have hsid : sidOut = fid := by
      have := congrArg (fun d => Prod.snd <$> d) hdata
      simpa using this.symm
    rcases List.mem_append.mp hx with hmem | hmem
    · exact absurd (hxid.trans hsid) (hfresh x hmem)
    · simp only [List.mem_singleton] at hmem
      rw [hmem]
  · have hr : login users sessions email password ip ua tok fid now =
        (⟨200, true, "Connexion réussie", some (sanitizeUser u, ex.id),
            some (ex.id, tok)⟩,
          sessions.map fun s =>
            if s.id == ex.id then
              { s with tokenHash := hashToken tok,
                       expiresAt := now + SESSION_EXPIRES_IN, isActive := true }
            else s) := by
      simp [login, hu, hnb, hpw, hEx]
    rw [hr]
    refine ⟨⟨ex.id, rfl⟩, fun p o => rfl, ?_, by simp [verifyToken, bcryptCompare, hashToken]⟩
    intro sidOut su hdata x hx hxid
    have hsid : sidOut = ex.id := by
      have := congrArg (fun d => Prod.snd <$> d) hdata
      simpa using this.symm
    rcases List.mem_map.mp hx with ⟨y, hy, rfl⟩
    by_cases h : y.id == ex.id
    · simp [h]
    · rw [if_neg h] at hxid
      exact absurd (beq_iff_eq.mpr (hxid.trans hsid)) h

/-- C8 witness: a concrete successful login from an empty session store —
the response carries the sanitized user, and the single stored record holds
the bcrypt digest of the issued token. -/
theorem C8_login_stores_only_hash_witness :
    (∃ sidOut,
      (login [alice] [] "a@x.com" "P@ssw0rd1" "ip" "ua" "t1" "f1" 0).1.data =
        some (sanitizeUser alice, sidOut)) ∧
    (∀ (p : Hash) (o : String),
      sanitizeUser { alice with password := p, otp := o } = sanitizeUser alice) ∧
    (∀ sidOut su,
      (login [alice] [] "a@x.com" "P@ssw0rd1" "ip" "ua" "t1" "f1" 0).1.data =
        some (su, sidOut) →
      ∀ x ∈ (login [alice] [] "a@x.com" "P@ssw0rd1" "ip" "ua" "t1" "f1" 0).2,
        x.id = sidOut → x.tokenHash = hashToken "t1") ∧
    verifyToken "t1" (hashToken "t1") = true :=
  C8_login_stores_only_hash [alice] [] alice "a@x.com" "P@ssw0rd1" "ip" "ua"
    "t1" "f1" 0 (by decide) (by decide) (by decide) (by decide)

/-! ### C4 -/

theorem reusableSession_spec {uid ip ua : String} {now : Nat} {s : Session} :
    reusableSession uid ip ua now s = true ↔
      (s.userId = uid ∧ s.ipAddress = ip ∧ s.userAgent = ua ∧
        s.isActive = true ∧ now < s.expiresAt) := by
  simp [reusableSession, and_assoc]

/-- The record a same-triple relogin writes over the found session. -/
def renewSession (s : Session) (tok : String) (now : Nat) : Session :=
  { s with tokenHash := hashToken tok,
           expiresAt := now + SESSION_EXPIRES_IN, isActive := true }

theorem login_reuse_eq {users : List User} {sessions : List Session} {u : User}
    {email password ip ua tok fid : String} {now : Nat} {ex : Session}
    (hu : users.find? (fun x => x.email == email) = some u)
    (hnb : u.isBanned = false)
    (hpw : bcryptCompare password u.password = true)
    (hEx : sessions.find? (reusableSession u.id ip ua now) = some ex) :
    login users sessions email password ip ua tok fid now =
      (⟨200, true, "Connexion réussie", some (sanitizeUser u, ex.id),
          some (ex.id, tok)⟩,
        sessions.map fun s => if s.id == ex.id then renewSession s tok now else s) := by
  simp [login, hu, hnb, hpw, hEx, renewSession]

theorem login_fresh_eq {users : List User} {sessions : List Session} {u : User}
    {email password ip ua tok fid : String} {now : Nat}
    (hu : users.find? (fun x => x.email == email) = some u)
    (hnb : u.isBanned = false)
    (hpw : bcryptCompare password u.password = true)
    (hEx : sessions.find? (reusableSession u.id ip ua now) = none) :
    login users sessions email password ip ua tok fid now =
      (⟨200, true, "Connexion réussie", some (sanitizeUser u, fid),
          some (fid, tok)⟩,
        sessions ++ [⟨fid, u.id, hashToken tok, ip, ua, true,
          now + SESSION_EXPIRES_IN⟩]) := by
  simp [login, hu, hnb, hpw, hEx]

/-- C4 (confirmed): (a) a second login with the same (userId, ipAddress,
userAgent) triple while a reusable (active, unexpired) session for the
triple exists returns that session's id and rewrites its `tokenHash`,
`expiresAt` and `isActive` in place — the store keeps the same number of
rows and all other rows are untouched; (b) a login with a different
userAgent appends a distinct new record, leaving every prior record —
including the first, still-valid session — unchanged; (c) `login` preserves
"at most one reusable record per triple" (counted at the login instant, for
every triple, on an id-unique store), and reusability only decays as time
advances, so the bound holds at all later instants too. -/
theorem C4_session_reuse
    (users : List User) (u : User) (email password ip ua tok fid : String)
    (now : Nat)
    (hu : users.find? (fun x => x.email == email) = some u)
    (hnb : u.isBanned = false)
    (hpw : bcryptCompare password u.password = true)
    (sessionsA : List Session) (ex : Session)
    (hA : sessionsA.find? (reusableSession u.id ip ua now) = some ex)
    (hAuniq : ∀ x ∈ sessionsA, x.id = ex.id → x = ex)
    (sessionsB : List Session) (ua2 fid2 : String)
    (hB : sessionsB.find? (reusableSession u.id ip ua2 now) = none)
    (hfresh : ∀ x ∈ sessionsB, x.id ≠ fid2) :
    (login users sessionsA email password ip ua tok fid now).1.data =
      some (sanitizeUser u, ex.id) ∧
    (login users sessionsA email password ip ua tok fid now).2.length =
      sessionsA.length ∧
    (∀ x ∈ (login users sessionsA email password ip ua tok fid now).2,
      x.id = ex.id → x = renewSession ex tok now) ∧
    (∀ x ∈ (login users sessionsA email password ip ua tok fid now).2,
      x.id ≠ ex.id → x ∈ sessionsA) ∧
    (login users sessionsB email password ip ua2 tok fid2 now).1.data =
      some (sanitizeUser u, fid2) ∧
    (login users sessionsB email password ip ua2 tok fid2 now).2 =
      sessionsB ++ [⟨fid2, u.id, hashToken tok, ip, ua2, true,
        now + SESSION_EXPIRES_IN⟩] ∧
    (∀ x ∈ sessionsB,
      x ∈ (login users sessionsB email password ip ua2 tok fid2 now).2 ∧
        x.id ≠ fid2) ∧
    (∀ (store : List Session) (ip3 ua3 tok3 fid3 uid4 ip4 ua4 : String),
      (∀ x ∈ store, ∀ y ∈ store, x.id = y.id → x = y) →
      store.countP (reusableSession uid4 ip4 ua4 now) ≤ 1 →
      (login users store email password ip3 ua3 tok3 fid3 now).2.countP
        (reusableSession uid4 ip4 ua4 now) ≤ 1) ∧
    (∀ (store : List Session) (uid4 ip4 ua4 : String) (t t2 : Nat), t ≤ t2 →
      store.countP (reusableSession uid4 ip4 ua4 t2) ≤
        store.countP (reusableSession uid4 ip4 ua4 t)) := by
  rw [login_reuse_eq hu hnb hpw hA, login_fresh_eq hu hnb hpw hB]
  refine ⟨rfl, List.length_map _ _, ?_, ?_, rfl, rfl, ?_, ?_, ?_⟩
  · intro x hx hxid
    rcases List.mem_map.mp hx with ⟨y, hy, rfl⟩
    by_cases h : y.id == ex.id
    · rw [if_pos h]
      rw [hAuniq y hy (beq_iff_eq.mp h)]
    · rw [if_neg h] at hxid
      exact absurd (beq_iff_eq.mpr hxid) h
  · intro x hx hxid
    rcases List.mem_map.mp hx with ⟨y, hy, rfl⟩
    by_cases h : y.id == ex.id
    · rw [if_pos h] at hxid
      exact absurd (beq_iff_eq.mp h) (by simpa [renewSession] using hxid)
    · rw [if_neg h]
      exact hy
  · intro x hx
    exact ⟨List.mem_append_left _ hx, hfresh x hx⟩
  · intro store ip3 ua3 tok3 fid3 uid4 ip4 ua4 hids hcount
    rcases hEx : store.find? (reusableSession u.id ip3 ua3 now) with _ | exC
    · rw [login_fresh_eq hu hnb hpw hEx]
      rw [List.countP_append]
      by_cases hp : reusableSession uid4 ip4 ua4 now
          ⟨fid3, u.id, hashToken tok3, ip3, ua3, true, now + SESSION_EXPIRES_IN⟩
      · obtain ⟨h1, h2, h3, -, -⟩ := reusableSession_spec.mp hp
        have hzero : store.countP (reusableSession uid4 ip4 ua4 now) = 0 := by
          rw [List.countP_eq_zero]
          intro a ha
          rw [← h1, ← h2, ← h3]
          exact List.find?_eq_none.mp hEx a ha
        rw [hzero]
        simp [List.countP_singleton, hp]
      · rw [List.countP_singleton, if_neg hp]
        simpa using hcount
    · rw [login_reuse_eq hu hnb hpw hEx]
      rw [List.countP_map]
      refine le_trans (le_trans (le_of_eq rfl) ?_) hcount
      apply List.countP_mono_left
      intro y hy hpy
      have hexC := List.find?_some hEx
      have hexCmem := List.mem_of_find?_eq_some hEx
      by_cases h : y.id == exC.id
      · have hyeq : y = exC := hids y hy exC hexCmem (beq_iff_eq.mp h)
        subst hyeq
        simp only [Function.comp, h, if_pos] at hpy
        obtain ⟨h1, h2, h3, -, -⟩ := reusableSession_spec.mp hpy
        obtain ⟨-, -, -, h4, h5⟩ := reusableSession_spec.mp hexC
        exact reusableSession_spec.mpr ⟨by simpa [renewSession] using h1,
          by simpa [renewSession] using h2, by simpa [renewSession] using h3, h4, h5⟩
      · simpa only [Function.comp, if_neg h] using hpy
  · intro store uid4 ip4 ua4 t t2 ht
    apply List.countP_mono_left
    intro a ha hpa
    obtain ⟨h1, h2, h3, h4, h5⟩ := reusableSession_spec.mp hpa
    exact reusableSession_spec.mpr ⟨h1, h2, h3, h4, lt_of_le_of_lt ht h5⟩

/-- C4 witness: with `alice`'s session live at instant 500, a relogin from
the same triple renews it in place, while a relogin with user agent "UA-2"
appends a distinct record; the invariant parts evaluated on the same store. -/
theorem C4_session_reuse_witness :
    (login [alice] [sessAlice] "a@x.com" "P@ssw0rd1" "203.0.113.5" "UA-1"
        "t2" "f9" 500).1.data = some (sanitizeUser alice, sessAlice.id) ∧
    (login [alice] [sessAlice] "a@x.com" "P@ssw0rd1" "203.0.113.5" "UA-1"
        "t2" "f9" 500).2.length = [sessAlice].length ∧
    (∀ x ∈ (login [alice] [sessAlice] "a@x.com" "P@ssw0rd1" "203.0.113.5"
        "UA-1" "t2" "f9" 500).2,
      x.id = sessAlice.id → x = renewSession sessAlice "t2" 500) ∧
    (∀ x ∈ (login [alice] [sessAlice] "a@x.com" "P@ssw0rd1" "203.0.113.5"
        "UA-1" "t2" "f9" 500).2,
      x.id ≠ sessAlice.id → x ∈ [sessAlice]) ∧
    (login [alice] [sessAlice] "a@x.com" "P@ssw0rd1" "203.0.113.5" "UA-2"
        "t2" "f9" 500).1.data = some (sanitizeUser alice, "f9") ∧
    (login [alice] [sessAlice] "a@x.com" "P@ssw0rd1" "203.0.113.5" "UA-2"
        "t2" "f9" 500).2 =
      [sessAlice] ++ [⟨"f9", alice.id, hashToken "t2", "203.0.113.5", "UA-2",
        true, 500 + SESSION_EXPIRES_IN⟩] ∧
    (∀ x ∈ [sessAlice],
      x ∈ (login [alice] [sessAlice] "a@x.com" "P@ssw0rd1" "203.0.113.5"
        "UA-2" "t2" "f9" 500).2 ∧ x.id ≠ "f9") ∧
    (∀ (store : List Session) (ip3 ua3 tok3 fid3 uid4 ip4 ua4 : String),
      (∀ x ∈ store, ∀ y ∈ store, x.id = y.id → x = y) →
      store.countP (reusableSession uid4 ip4 ua4 500) ≤ 1 →
      (login [alice] store "a@x.com" "P@ssw0rd1" ip3 ua3 tok3 fid3 500).2.countP
        (reusableSession uid4 ip4 ua4 500) ≤ 1) ∧
    (∀ (store : List Session) (uid4 ip4 ua4 : String) (t t2 : Nat), t ≤ t2 →
      store.countP (reusableSession uid4 ip4 ua4 t2) ≤
        store.countP (reusableSession uid4 ip4 ua4 t)) :=
  C4_session_reuse [alice] alice "a@x.com" "P@ssw0rd1" "203.0.113.5" "UA-1"
    "t2" "f9" 500 (by decide) (by decide) (by decide) [sessAlice] sessAlice
    (by decide) (by decide) [sessAlice] "UA-2" "f9" (by decide) (by decide)

end Blog
